import Mathlib

/-!
Verification development for the react-hydration-rules repository.

The repository documents and tests a UI runtime's resume (hydration)
protocol: whether a Suspense-style boundary keeps its previously streamed
content or falls back to its placeholder when an update is dispatched.
The decision engine itself lives inside the external runtime; the
repository contains its test fixtures (src/src, src/unnamed) and the
streaming-render/hydrate harness (src/unnamed/part_006, src/ssr-template.tsx).

The decision procedure below is therefore modelled from the spec
(section 4.2), the harness and the page template are embedded from the
source files.
-/

/- ### Data model (spec section 3) -/

/-- Update classification: urgent (default) vs deferred (transition). -/
inductive Classification
  | urgent
  | deferred
deriving DecidableEq, Repr

/-- Where the update's value is read from. -/
inductive SourceKind
  | localState
  | reducer
  | subscriptionStore
deriving DecidableEq, Repr

/-- Whether the value-changing write happens before or after an
asynchronous suspension point. -/
inductive OriginTiming
  | preResume
  | postResume
deriving DecidableEq, Repr

/-- Process-wide resume phase: `resuming` from attach until the initial
synchronous pass completes, then `resumed`. -/
inductive ResumePhase
  | resuming
  | resumed
deriving DecidableEq, Repr

/-- A boundary either shows its preserved content or its placeholder. -/
inductive BoundaryState
  | content
  | placeholder
deriving DecidableEq, Repr

/-- One simulated interaction (spec section 3, UpdateTrigger). -/
structure UpdateTrigger where
  classification : Classification
  valueChanged : Bool
  sourceKind : SourceKind
  originTiming : OriginTiming
  asyncContextPreserved : Bool
deriving DecidableEq, Repr

/- ### Priority Update Scheduler (spec section 4.2) -/

/-- Modelled from the spec: the Priority Update Scheduler's decision
procedure (spec section 4.2) is the external runtime's internal update
classification; only its test fixtures are in `src/`. Rules are evaluated
in order, first match decides. `unrelatedSyncCoUpdate` is rule 4c's
"second, unrelated synchronous value-changing update rendered into the
same boundary's subtree in the same render pass". -/
def keepContent (phase : ResumePhase) (t : UpdateTrigger)
    (unrelatedSyncCoUpdate : Bool) : Bool :=
  if t.valueChanged = false then
    true
  else if t.sourceKind = SourceKind.subscriptionStore then
    false
  else
    match phase, t.classification with
    | ResumePhase.resuming, Classification.urgent => false
    | ResumePhase.resuming, Classification.deferred =>
      let eligible :=
        match t.originTiming with
        | OriginTiming.preResume => true
        | OriginTiming.postResume => t.asyncContextPreserved
      if eligible then !unrelatedSyncCoUpdate else false
    | ResumePhase.resumed, Classification.urgent => false
    | ResumePhase.resumed, Classification.deferred => true

/-- Spec section 4.2, side effects: `keepContent = false` flips the
boundary to placeholder, `keepContent = true` leaves it unchanged. -/
def applyDecision (b : BoundaryState) (keep : Bool) : BoundaryState :=
  if keep then b else BoundaryState.placeholder

/-- Modelled from the spec: the Resume Coordinator dispatches a trigger
against a boundary currently in `content` state (spec sections 4.2, 4.3)
and applies the scheduler's decision. -/
def dispatchResult (phase : ResumePhase) (t : UpdateTrigger)
    (unrelatedSyncCoUpdate : Bool) : BoundaryState :=
  applyDecision BoundaryState.content (keepContent phase t unrelatedSyncCoUpdate)

/- ### Claims about the scheduler -/

/-- Claim C1: an urgent, value-changing, pre-resume trigger from local
state or a reducer, dispatched while resuming against a boundary in
content state, is decided `keepContent = false` and the boundary ends in
placeholder state (any `asyncContextPreserved`, any co-update). -/
theorem urgent_preResume_discards_content :
    ∀ (ac co : Bool),
      keepContent ResumePhase.resuming
        ⟨Classification.urgent, true, SourceKind.localState,
          OriginTiming.preResume, ac⟩ co = false ∧
      dispatchResult ResumePhase.resuming
        ⟨Classification.urgent, true, SourceKind.localState,
          OriginTiming.preResume, ac⟩ co = BoundaryState.placeholder ∧
      keepContent ResumePhase.resuming
        ⟨Classification.urgent, true, SourceKind.reducer,
          OriginTiming.preResume, ac⟩ co = false ∧
      dispatchResult ResumePhase.resuming
        ⟨Classification.urgent, true, SourceKind.reducer,
          OriginTiming.preResume, ac⟩ co = BoundaryState.placeholder := by
  intro ac co
  refine ⟨rfl, rfl, rfl, rfl⟩

/-- Claim C2 counterexample: a deferred, value-changing, pre-resume
trigger whose source is a subscription store is decided
`keepContent = false` while resuming (rule 2 precedes rule 4), refuting
the claim's universal `keepContent = true` over every `UpdateTrigger`. -/
theorem deferred_preResume_subscriptionStore_not_kept :
    keepContent ResumePhase.resuming
      ⟨Classification.deferred, true, SourceKind.subscriptionStore,
        OriginTiming.preResume, true⟩ false = false := rfl

/-- Claim C2 (amended): a deferred, value-changing, pre-resume trigger
whose source is local state or a reducer (not a subscription store),
dispatched while resuming with no unrelated synchronous co-update, is
decided `keepContent = true` and the boundary stays in content state. -/
theorem deferred_preResume_keeps_content :
    ∀ (ac : Bool),
      keepContent ResumePhase.resuming
        ⟨Classification.deferred, true, SourceKind.localState,
          OriginTiming.preResume, ac⟩ false = true ∧
      dispatchResult ResumePhase.resuming
        ⟨Classification.deferred, true, SourceKind.localState,
          OriginTiming.preResume, ac⟩ false = BoundaryState.content ∧
      keepContent ResumePhase.resuming
        ⟨Classification.deferred, true, SourceKind.reducer,
          OriginTiming.preResume, ac⟩ false = true ∧
      dispatchResult ResumePhase.resuming
        ⟨Classification.deferred, true, SourceKind.reducer,
          OriginTiming.preResume, ac⟩ false = BoundaryState.content := by
  intro ac
  refine ⟨rfl, rfl, rfl, rfl⟩

/-- Claim C3: a value-changing trigger from a subscription store is
decided `keepContent = false` for every resume phase, classification,
origin timing, `asyncContextPreserved` and co-update, and the boundary
flips to placeholder state. -/
theorem subscriptionStore_always_discards :
    ∀ (phase : ResumePhase) (c : Classification) (ot : OriginTiming)
      (ac co : Bool),
      keepContent phase ⟨c, true, SourceKind.subscriptionStore, ot, ac⟩ co
        = false ∧
      dispatchResult phase ⟨c, true, SourceKind.subscriptionStore, ot, ac⟩ co
        = BoundaryState.placeholder := by
  intro phase c ot ac co
  exact ⟨rfl, rfl⟩

/-- Claim C4: a trigger whose value is observably unchanged is decided
`keepContent = true` regardless of every other field and of the resume
phase, and the boundary state is left unchanged. -/
theorem unchanged_value_keeps_content :
    ∀ (phase : ResumePhase) (c : Classification) (sk : SourceKind)
      (ot : OriginTiming) (ac co : Bool) (b : BoundaryState),
      keepContent phase ⟨c, false, sk, ot, ac⟩ co = true ∧
      applyDecision b (keepContent phase ⟨c, false, sk, ot, ac⟩ co) = b ∧
      dispatchResult phase ⟨c, false, sk, ot, ac⟩ co
        = BoundaryState.content := by
  intro phase c sk ot ac co b
  exact ⟨rfl, rfl, rfl⟩

/-- Claim C5 counterexample: a deferred, value-changing, post-resume
trigger from a subscription store with `asyncContextPreserved = true`,
dispatched while resuming with no co-update, is decided
`keepContent = false` (rule 2 precedes rule 4b), refuting the claimed
equivalence `keepContent = true` iff `asyncContextPreserved = true` over
every `UpdateTrigger`. -/
theorem deferred_postResume_subscriptionStore_breaks_iff :
    (⟨Classification.deferred, true, SourceKind.subscriptionStore,
        OriginTiming.postResume, true⟩ : UpdateTrigger).asyncContextPreserved
      = true ∧
    keepContent ResumePhase.resuming
      ⟨Classification.deferred, true, SourceKind.subscriptionStore,
        OriginTiming.postResume, true⟩ false = false := ⟨rfl, rfl⟩

/-- Claim C5 (amended): for a deferred, value-changing, post-resume
trigger from local state or a reducer (not a subscription store),
dispatched while resuming with no unrelated synchronous co-update,
`keepContent = true` holds exactly when `asyncContextPreserved = true`. -/
theorem deferred_postResume_kept_iff_context_preserved :
    ∀ (ac : Bool),
      (keepContent ResumePhase.resuming
        ⟨Classification.deferred, true, SourceKind.localState,
          OriginTiming.postResume, ac⟩ false = true ↔ ac = true) ∧
      (keepContent ResumePhase.resuming
        ⟨Classification.deferred, true, SourceKind.reducer,
          OriginTiming.postResume, ac⟩ false = true ↔ ac = true) := by
  intro ac
  cases ac <;> exact ⟨by simp [keepContent], by simp [keepContent]⟩

/-- Claim C6: a deferred, value-changing trigger dispatched while
resuming is decided `keepContent = false` whenever the same render pass
also produces an unrelated synchronous value-changing co-update into the
same boundary's subtree, for every source kind, origin timing and
`asyncContextPreserved`; the boundary shows its placeholder. -/
theorem pending_coUpdate_downgrades_deferred :
    ∀ (sk : SourceKind) (ot : OriginTiming) (ac : Bool),
      keepContent ResumePhase.resuming
        ⟨Classification.deferred, true, sk, ot, ac⟩ true = false ∧
      dispatchResult ResumePhase.resuming
        ⟨Classification.deferred, true, sk, ot, ac⟩ true
        = BoundaryState.placeholder := by
  intro sk ot ac
  cases sk <;> cases ot <;> cases ac <;> exact ⟨rfl, rfl⟩

/- ### Streaming render and hydrate harness (src/unnamed/part_006) -/

/-- Which stream event `renderAndHydrate` waits for before capturing the
server HTML (parameter `waitFor` of `renderAndHydrate`). -/
inductive WaitFor
  | shellReady
  | allReady
deriving DecidableEq, Repr

/-- Callback invocations produced by the streaming renderer, each ready
event carrying the HTML piped into the writable stream at that point. -/
inductive StreamEvent
  | shellReady (htmlSoFar : String)
  | allReady (htmlSoFar : String)
  | shellError (msg : String)
  | renderError (msg : String)
deriving DecidableEq, Repr

/-- Settled state of the promise returned by `renderAndHydrate`. -/
inductive PromiseState
  | pending
  | resolved (html : String)
  | rejected (msg : String)
deriving DecidableEq, Repr

/-- The harness state observable from outside: the promise plus the
side-channel error log (`console.error` in the `onError` callback). -/
structure CallbackState where
  promise : PromiseState
  errorLog : List String
deriving DecidableEq, Repr

/-- A promise resolves at most once; later settlements are ignored. -/
def settleResolve (s : CallbackState) (h : String) : CallbackState :=
  match s.promise with
  | PromiseState.pending => { s with promise := PromiseState.resolved h }
  | _ => s

/-- A promise rejects at most once; later settlements are ignored. -/
def settleReject (s : CallbackState) (m : String) : CallbackState :=
  match s.promise with
  | PromiseState.pending => { s with promise := PromiseState.rejected m }
  | _ => s

/-- The callback wiring of `renderAndHydrate` (src/unnamed/part_006):
`onShellReady` resolves only when `waitFor == "shellReady"`, `onAllReady`
resolves only when `waitFor == "allReady"`, `onShellError` rejects with a
`"Shell rendering failed: "`-prefixed message, and `onError` only logs
the error to the side channel. -/
def handleEvent (waitFor : WaitFor) (s : CallbackState) :
    StreamEvent → CallbackState
  | StreamEvent.shellReady h =>
    if waitFor = WaitFor.shellReady then settleResolve s h else s
  | StreamEvent.allReady h =>
    if waitFor = WaitFor.allReady then settleResolve s h else s
  | StreamEvent.shellError m =>
    settleReject s ("Shell rendering failed: " ++ m)
  | StreamEvent.renderError m =>
    { s with errorLog := s.errorLog ++ [m] }

/-- Run the callbacks over the stream's event sequence, starting from a
pending promise and an empty side-channel log. -/
def runCallbacks (waitFor : WaitFor) (events : List StreamEvent) :
    CallbackState :=
  events.foldl (handleEvent waitFor) ⟨PromiseState.pending, []⟩

/-- One boundary of a rendered tree fixture: its placeholder markup, its
content markup, and an error optionally thrown while rendering its
deferred subtree after the shell was ready. -/
structure BoundaryFixture where
  placeholderHtml : String
  contentHtml : String
  deferredError : Option String
deriving DecidableEq, Repr

/-- At shell time an unresolved boundary emits its placeholder. -/
def boundaryShellHtml (b : BoundaryFixture) : String := b.placeholderHtml

/-- Modelled from the spec: in the completed stream a boundary whose
deferred subtree threw falls back to its placeholder representation for
that render pass (spec section 4.1); otherwise its content is flushed. -/
def boundaryFinalHtml (b : BoundaryFixture) : String :=
  match b.deferredError with
  | some _ => b.placeholderHtml
  | none => b.contentHtml

/-- A tree fixture: an error optionally thrown while rendering the
synchronous shell, the static markup, and the boundaries. -/
structure TreeFixture where
  shellThrows : Option String
  staticHtml : String
  boundaries : List BoundaryFixture
deriving DecidableEq, Repr

/-- HTML available when the shell is ready (deferred subtrees pending). -/
def shellHtml (t : TreeFixture) : String :=
  t.staticHtml ++ String.join (t.boundaries.map boundaryShellHtml)

/-- HTML after every deferred subtree has resolved and been flushed. -/
def finalHtml (t : TreeFixture) : String :=
  t.staticHtml ++ String.join (t.boundaries.map boundaryFinalHtml)

/-- The errors thrown by deferred subtrees, in tree order. -/
def deferredErrorList (t : TreeFixture) : List String :=
  t.boundaries.filterMap (fun b => b.deferredError)

/-- Modelled from the spec: the event sequence of the streaming renderer
(spec sections 4.1, 5): a shell error is fatal and nothing else fires;
otherwise `shellReady` fires first, each deferred-subtree error is
surfaced without aborting the stream, and `allReady` fires last. -/
def streamEvents (t : TreeFixture) : List StreamEvent :=
  match t.shellThrows with
  | some m => [StreamEvent.shellError m]
  | none =>
    StreamEvent.shellReady (shellHtml t)
      :: (deferredErrorList t).map StreamEvent.renderError
      ++ [StreamEvent.allReady (finalHtml t)]

/-- Embedding of `renderAndHydrate` (src/unnamed/part_006) restricted to
its SSR-capture promise: `waitFor` defaults to `allReady` exactly as in
the source signature. -/
def renderAndHydrate (t : TreeFixture)
    (waitFor : WaitFor := WaitFor.allReady) : CallbackState :=
  runCallbacks waitFor (streamEvents t)

/-- Folding the side-channel error events only appends to the log. -/
theorem foldl_renderError_log (w : WaitFor) (errs : List String)
    (s : CallbackState) :
    List.foldl (handleEvent w) s (errs.map StreamEvent.renderError)
      = { s with errorLog := s.errorLog ++ errs } := by
  induction errs generalizing s with
  | nil => simp
  | cons e es ih =>
    simp only [List.map_cons, List.foldl_cons, handleEvent]
    rw [ih]
    simp

/-- Claim C7: a shell-render error fails the whole operation (the
harness's promise rejects with the `ShellRenderError` message) for every
`waitFor`; a deferred-subtree error after the shell is ready is reported
only via the side-channel log, the stream still completes (the default
run resolves with the fully flushed HTML), and a boundary whose deferred
subtree threw falls back to its placeholder representation. -/
theorem shell_error_fatal_deferred_error_recovered :
    ∀ (staticHtml : String) (bs : List BoundaryFixture) (m : String)
      (w : WaitFor) (ph ch e : String),
      (renderAndHydrate ⟨some m, staticHtml, bs⟩ w).promise
        = PromiseState.rejected ("Shell rendering failed: " ++ m) ∧
      (renderAndHydrate ⟨none, staticHtml, bs⟩).promise
        = PromiseState.resolved (finalHtml ⟨none, staticHtml, bs⟩) ∧
      (renderAndHydrate ⟨none, staticHtml, bs⟩ w).errorLog
        = deferredErrorList ⟨none, staticHtml, bs⟩ ∧
      boundaryFinalHtml ⟨ph, ch, some e⟩ = ph := by
  intro staticHtml bs m w ph ch e
  refine ⟨rfl, ?_, ?_, rfl⟩
  · show (runCallbacks WaitFor.allReady _).promise = _
    simp only [runCallbacks, streamEvents, List.foldl_cons, List.foldl_append,
      handleEvent, foldl_renderError_log]
    rfl
  · cases w <;>
      simp [renderAndHydrate, runCallbacks, streamEvents, handleEvent,
        foldl_renderError_log, settleResolve]

/-- Claim C10: `waitFor` defaults to `allReady` when omitted, the handler
for the non-selected ready event performs no action, and the promise
resolves with the HTML captured exactly at the selected event: the fully
flushed HTML by default (`allReady`), or the shell HTML (deferred
subtrees still pending) when `waitFor == shellReady`. -/
theorem renderAndHydrate_waitFor_selects_capture :
    ∀ (staticHtml : String) (bs : List BoundaryFixture)
      (s : CallbackState) (h : String),
      handleEvent WaitFor.allReady s (StreamEvent.shellReady h) = s ∧
      handleEvent WaitFor.shellReady s (StreamEvent.allReady h) = s ∧
      renderAndHydrate ⟨none, staticHtml, bs⟩
        = renderAndHydrate ⟨none, staticHtml, bs⟩ WaitFor.allReady ∧
      (renderAndHydrate ⟨none, staticHtml, bs⟩ WaitFor.allReady).promise
        = PromiseState.resolved (finalHtml ⟨none, staticHtml, bs⟩) ∧
      (renderAndHydrate ⟨none, staticHtml, bs⟩ WaitFor.shellReady).promise
        = PromiseState.resolved (shellHtml ⟨none, staticHtml, bs⟩) := by
  intro staticHtml bs s h
  refine ⟨rfl, rfl, rfl, ?_, ?_⟩
  · simp only [renderAndHydrate, runCallbacks, streamEvents, List.foldl_cons,
      List.foldl_append, handleEvent, foldl_renderError_log]
    rfl
  · simp [renderAndHydrate, runCallbacks, streamEvents, handleEvent,
      foldl_renderError_log, settleResolve]

/- ### Scenario-level module state (src/unnamed/part_002, external-store
test file, and src/src/SuspenseFallbackOnExternalStore.tsx) -/

/-- The `CounterStore` class of the fixture: a mutable value plus the
identity of the allocation that produced this instance (`new
CounterStore()` runs once, at module load). -/
structure CounterStore where
  instanceId : Nat
  value : Nat
deriving DecidableEq, Repr

/-- `increment` of `CounterStore`: bumps the value and notifies
listeners; the instance itself is unchanged. -/
def CounterStore.increment (s : CounterStore) : CounterStore :=
  { s with value := s.value + 1 }

/-- `increment` applied `n` times (one per simulated click). -/
def CounterStore.incrementN : Nat → CounterStore → CounterStore
  | 0, s => s
  | n + 1, s => CounterStore.incrementN n s.increment

/-- The module-level state of the external-store test file: the single
`const counterStore = new CounterStore()` binding and the current
`LazyChild` allocation (replaced by `resetLazyCache`). -/
structure TestModuleState where
  counterStore : CounterStore
  lazyCacheId : Nat
deriving DecidableEq, Repr

/-- Module load: `new CounterStore()` runs exactly once (allocation 0)
and the initial `LazyChild` is created. -/
def loadTestModule : TestModuleState :=
  { counterStore := { instanceId := 0, value := 0 }, lazyCacheId := 0 }

/-- `resetLazyCache` replaces `LazyChild` with a freshly constructed
lazy component (a new deferred-subtree instance). -/
def resetLazyCache (s : TestModuleState) : TestModuleState :=
  { s with lazyCacheId := s.lazyCacheId + 1 }

/-- One scenario run: `renderAndHydrate` invokes `resetLazyCache` before
hydration, then the simulated clicks increment the store. -/
def runScenario (s : TestModuleState) (clicks : Nat) : TestModuleState :=
  let s := resetLazyCache s
  { s with counterStore := CounterStore.incrementN clicks s.counterStore }

/-- The `afterEach` hook of the external-store test file: clears the
document and sets the store's value back to 0. -/
def afterEachHook (s : TestModuleState) : TestModuleState :=
  { s with counterStore := { s.counterStore with value := 0 } }

/-- A full scenario cycle as the test runner executes it: the scenario
body followed by the `afterEach` teardown. -/
def scenarioCycle (s : TestModuleState) (clicks : Nat) : TestModuleState :=
  afterEachHook (runScenario s clicks)

/-- Claim C8 as stated: every scenario run constructs a fresh
subscription-store instance (the store identity after a cycle differs
from the one before it). -/
def freshStoreEachScenario : Prop :=
  ∀ (s : TestModuleState) (clicks : Nat),
    (scenarioCycle s clicks).counterStore.instanceId
      ≠ s.counterStore.instanceId

/-- Claim C8 counterexample: running one scenario (a single click) from
module load leaves the store's `instanceId` unchanged — `counterStore` is
a module-level singleton shared across scenario runs, so the claimed
freshness fails at this concrete input. -/
theorem counterStore_is_module_singleton : ¬ freshStoreEachScenario := by
  intro h
  exact h loadTestModule 1 rfl

/-- Simulated clicks mutate only the store's value, never its identity. -/
theorem incrementN_instanceId (n : Nat) (s : CounterStore) :
    (CounterStore.incrementN n s).instanceId = s.instanceId := by
  induction n generalizing s with
  | zero => rfl
  | succ n ih => exact ih s.increment

/-- Claim C8 (amended): the subscription store is a module-level
singleton reused across scenario runs, but each run constructs a fresh
lazy deferred-subtree instance (`resetLazyCache`) and the `afterEach`
hook resets the store's value to 0, so the store snapshot observed at the
start of the next scenario equals the freshly loaded one and no value
mutation leaks into a subsequent run. -/
theorem scenarioCycle_resets_observable_state :
    ∀ (s : TestModuleState) (clicks : Nat),
      (scenarioCycle s clicks).counterStore.instanceId
        = s.counterStore.instanceId ∧
      (scenarioCycle s clicks).lazyCacheId ≠ s.lazyCacheId ∧
      (scenarioCycle s clicks).counterStore.value
        = loadTestModule.counterStore.value := by
  intro s clicks
  refine ⟨?_, Nat.succ_ne_self s.lazyCacheId, rfl⟩
  simp [scenarioCycle, afterEachHook, runScenario, resetLazyCache,
    incrementN_instanceId]

/- ### Full-document construction (src/ssr-template.tsx) -/

/-- The options object handed to `ssrTemplate` by the page-generation
tooling, restricted to the fields the claim mentions plus `chunks`,
which the template string actually reads. `includeDiagnosticMarker` is
carried so that its effect on the output can be stated. -/
structure SsrOptions where
  title : Option String
  chunks : List String
  includeDiagnosticMarker : Bool
deriving DecidableEq, Repr

/-- The template's `options.title || "React App"`: the JavaScript
or-else takes the default when `title` is absent or empty. -/
def titleOrDefault (o : SsrOptions) : String :=
  match o.title with
  | none => "React App"
  | some t => if t = "" then "React App" else t

/-- The template's `options.chunks?.[0]` interpolation: a missing first
chunk is interpolated by the template literal as the text "undefined". -/
def chunksHeadString (o : SsrOptions) : String :=
  match o.chunks with
  | [] => "undefined"
  | c :: _ => c

/-- Document text before the title element. -/
def docBeforeTitle : String :=
  "<!DOCTYPE html>\n<html lang=\"en\">\n<head>\n    <meta charset=\"UTF-8\">\n    <meta name=\"viewport\" content=\"width=device-width, initial-scale=1.0\">\n    "

/-- Document text after the title element: head close, the root div
holding the streamed markup, and the source-link corner naming the
first chunk. -/
def docAfterTitle (o : SsrOptions) (html : String) : String :=
  "\n</head>\n<body>\n    <div id=\"root\">" ++ html
    ++ "</div>\n\n    <script src=\"https://unpkg.com/github-corner-element\"></script>\n    <github-corner title=\"Example Source Code\" href=\"https://github.com/jantimon/react-hydration-rules/tree/main/src/"
    ++ chunksHeadString o
    ++ ".tsx\"></github-corner>\n</body>\n</html>"

/-- The `fullHtml` template literal of `ssrTemplate`
(src/ssr-template.tsx): the complete document built from the streamed
markup and the recognized options. -/
def ssrTemplateDoc (o : SsrOptions) (html : String) : String :=
  docBeforeTitle ++ ("<title>" ++ titleOrDefault o ++ "</title>")
    ++ docAfterTitle o html

/-- Claim C9 counterexample: toggling `includeDiagnosticMarker` does not
change the produced document at all — the option is not recognized by
`ssrTemplate`, refuting the claim that setting it changes the output. -/
theorem includeDiagnosticMarker_has_no_effect :
    ssrTemplateDoc ⟨some "Test Page", ["Comp"], true⟩ "<p>x</p>"
      = ssrTemplateDoc ⟨some "Test Page", ["Comp"], false⟩ "<p>x</p>" := rfl

/-- Claim C9 (amended): the document construction of `ssrTemplate` is a
pure function of the streamed markup and the options; it recognizes
`title` (placed in the title element, defaulting to "React App" when
absent or empty) and `chunks` (whose first entry names the source link);
`includeDiagnosticMarker` is not recognized and never affects the
output. -/
theorem ssrTemplateDoc_recognized_options :
    ∀ (o : SsrOptions) (html : String) (b : Bool),
      ssrTemplateDoc { o with includeDiagnosticMarker := b } html
        = ssrTemplateDoc o html ∧
      (∃ pre post, ssrTemplateDoc o html
        = pre ++ ("<title>" ++ titleOrDefault o ++ "</title>") ++ post) := by
  intro o html b
  exact ⟨rfl, docBeforeTitle, docAfterTitle o html, rfl⟩
